import Mathlib

/-!
Verification development for the HuggingFace text-to-image desktop client
(`main.py`).  The program submits a prompt to a remote inference endpoint,
interprets the polymorphic HTTP response (raw image bytes, JSON error, or a
base64 payload located by a heuristic depth-first search), decodes the image,
scales it to a fixed bounding box and displays it.

The embedding below translates the decision logic of `main.py` into Lean:

* `Json` models the values produced by `resp.json()`; Python dicts keep
  insertion order, so an object is a list of key/value pairs in that order.
* `search_for_base64` models the nested function of the same name
  (`main.py` lines 162-175): a depth-first search whose `nonlocal found_b64`
  early-return makes it return the first string passing the heuristic.
* `interpret_response` models the response-interpretation block of
  `generate_image` (lines 144-183), parameterised by the outcome of
  `resp.json()` (`Option Json`, `none` = parse exception).
* `b64decode` models Python's `base64.b64decode` (standard alphabet,
  non-strict: characters outside the alphabet are discarded, the first
  padding character ends the data, a quad position of 1 or unpadded
  leftovers fail).  Library exception texts are not modelled beyond the
  failure being a failure.
* `display_image` models the scaling arithmetic of lines 194-201 with exact
  rational arithmetic in place of IEEE floats; `int()` on a non-negative
  float is the floor.
* `on_generate_clicked`, `generate_image`, `clear_image`, `save_image`
  model the handlers' effect on the mutable slots `generated_image` and
  `photo_image`; network, JSON parsing and PIL decoding enter as explicit
  parameters (`Except String _`, errors carrying the exception message).
-/

namespace HFApp

/-! JSON values as produced by `resp.json()`.  Mutual lists are used instead
of nested `List` so that all functions and proofs are by plain mutual
structural recursion.  Numbers are modelled as integers (no claim involves
floats). -/
mutual

inductive Json where
  | null : Json
  | bool (b : Bool) : Json
  | num (n : Int) : Json
  | str (s : String) : Json
  | arr (xs : JsonList) : Json
  | obj (kvs : JsonKVs) : Json

inductive JsonList where
  | nil : JsonList
  | cons (hd : Json) (tl : JsonList) : JsonList

inductive JsonKVs where
  | nil : JsonKVs
  | cons (key : String) (val : Json) (tl : JsonKVs) : JsonKVs

end

/-- The character class of the heuristic in `search_for_base64`
(line 168): `c.isalnum() or c in "+/=\n\r"`. -/
def isB64HeuristicChar (c : Char) : Bool :=
  c.isAlphanum || c = '+' || c = '/' || c = '=' || c = '\n' || c = '\r'

/-- The base64-likely heuristic of line 168:
`len(obj) > 200 and all(c.isalnum() or c in "+/=\n\r" for c in obj[:200])`. -/
def isB64Likely (s : String) : Bool :=
  decide (s.length > 200) && (s.toList.take 200).all isB64HeuristicChar

mutual

/-- `search_for_base64` (lines 162-175).  The Python original threads a
`nonlocal found_b64` and returns early once it is set, so it computes the
first string, in depth-first order (dict values in insertion order, list
elements in index order), satisfying the heuristic. -/
def search_for_base64 : Json → Option String
  | .str s => if isB64Likely s then some s else none
  | .arr xs => searchList xs
  | .obj kvs => searchKVs kvs
  | .null => none
  | .bool _ => none
  | .num _ => none

/-- DFS over the elements of a JSON list (`for v in obj: search_for_base64(v)`). -/
def searchList : JsonList → Option String
  | .nil => none
  | .cons x xs =>
    match search_for_base64 x with
    | some s => some s
    | none => searchList xs

/-- DFS over the values of a JSON object (`for v in obj.values(): search_for_base64(v)`). -/
def searchKVs : JsonKVs → Option String
  | .nil => none
  | .cons _ v kvs =>
    match search_for_base64 v with
    | some s => some s
    | none => searchKVs kvs

end

mutual

/-- Specification-side description of the traversal order: all string values
of a JSON structure, listed in depth-first structural order. -/
def flattenStrings : Json → List String
  | .str s => [s]
  | .arr xs => flattenStringsList xs
  | .obj kvs => flattenStringsKVs kvs
  | .null => []
  | .bool _ => []
  | .num _ => []

/-- Strings of a JSON list, elements in index order. -/
def flattenStringsList : JsonList → List String
  | .nil => []
  | .cons x xs => flattenStrings x ++ flattenStringsList xs

/-- Strings of a JSON object, values in insertion order. -/
def flattenStringsKVs : JsonKVs → List String
  | .nil => []
  | .cons _ v kvs => flattenStrings v ++ flattenStringsKVs kvs

end

/-- Python truthiness of a JSON value (`if j.get("error")`):
`None`, `False`, `0`, `""`, `[]`, `\x7b\x7d` are falsy, everything else truthy. -/
def pyTruthy : Json → Bool
  | .null => false
  | .bool b => b
  | .num n => decide (n ≠ 0)
  | .str s => decide (s.length ≠ 0)
  | .arr .nil => false
  | .arr (.cons _ _) => true
  | .obj .nil => false
  | .obj (.cons _ _ _) => true

/-- `dict.get(key)`: the value stored under `key`, if any.  Keys of a parsed
Python dict are unique, so first match suffices. -/
def jget : JsonKVs → String → Option Json
  | .nil, _ => none
  | .cons k v kvs, key => if k = key then some v else jget kvs key

mutual

/-- Python `repr` of a JSON value (as used by `str()` on dicts and lists in
the f-string error messages).  String escaping is not modelled: the inputs
of this development contain no quotes or backslashes. -/
def pyRepr : Json → String
  | .null => "None"
  | .bool true => "True"
  | .bool false => "False"
  | .num n => toString n
  | .str s => "\x27" ++ s ++ "\x27"
  | .arr xs => "[" ++ pyReprList xs ++ "]"
  | .obj kvs => "\x7b" ++ pyReprKVs kvs ++ "\x7d"

/-- Comma-separated `repr`s of list elements. -/
def pyReprList : JsonList → String
  | .nil => ""
  | .cons x .nil => pyRepr x
  | .cons x (.cons y ys) => pyRepr x ++ ", " ++ pyReprList (.cons y ys)

/-- Comma-separated `repr`s of dict entries. -/
def pyReprKVs : JsonKVs → String
  | .nil => ""
  | .cons k v .nil => "\x27" ++ k ++ "\x27: " ++ pyRepr v
  | .cons k v (.cons k2 v2 kvs) =>
    "\x27" ++ k ++ "\x27: " ++ pyRepr v ++ ", " ++ pyReprKVs (.cons k2 v2 kvs)

end

/-- Python `str` of a JSON value, as interpolated by the f-strings:
a string renders as itself, containers and scalars via `repr`. -/
def pyStr : Json → String
  | .str s => s
  | j => pyRepr j

/-- Value of a character in the standard base64 alphabet (`A-Z a-z 0-9 + /`),
if it belongs to it. -/
def b64val (c : Char) : Option Nat :=
  if 65 ≤ c.toNat ∧ c.toNat ≤ 90 then some (c.toNat - 65)
  else if 97 ≤ c.toNat ∧ c.toNat ≤ 122 then some (c.toNat - 71)
  else if 48 ≤ c.toNat ∧ c.toNat ≤ 57 then some (c.toNat - 48 + 52)
  else if c = '+' then some 62
  else if c = '/' then some 63
  else none

/-- Decode a run of 6-bit base64 digits into bytes, quads first.  `padded`
records whether a padding character followed the digits: a leftover of two
or three digits is completed only then (Python raises `Incorrect padding`
otherwise), and a leftover of one digit is always an error. -/
def decodeQuads : List Nat → Bool → Option (List Nat)
  | a :: b :: c :: d :: rest, padded =>
    (decodeQuads rest padded).map fun bs =>
      (a * 4 + b / 16) :: ((b % 16) * 16 + c / 4) :: ((c % 4) * 64 + d) :: bs
  | [], _ => some []
  | [_], _ => none
  | [a, b], padded => if padded then some [a * 4 + b / 16] else none
  | [a, b, c], padded =>
    if padded then some [a * 4 + b / 16, (b % 16) * 16 + c / 4] else none

/-- Model of Python's `base64.b64decode` on a `str` argument (line 179):
the string is encoded as ASCII (failure on non-ASCII), characters outside
the alphabet and padding are discarded, the first padding character ends
the data, and the digits are decoded in quads.  `none` models the raised
`ValueError`/`binascii.Error`. -/
def b64decode (s : String) : Option (List Nat) :=
  if s.toList.all (fun c => decide (c.toNat < 128)) then
    let kept := s.toList.filter fun c => (b64val c).isSome || c = '='
    let data := kept.takeWhile fun c => c ≠ '='
    decodeQuads (data.filterMap b64val) (decide (data.length < kept.length))
  else none

/-- The interpreter's verdict: an image byte buffer, or a failure carrying
the message of the raised `RuntimeError` (spec: `GenerationResult`). -/
inductive GenerationResult where
  | image (bytes : List Nat) : GenerationResult
  | failure (msg : String) : GenerationResult
deriving DecidableEq

/-- Python `s.startswith(p)`: the characters of `p` are an initial segment
of the characters of `s`. -/
def pyStartsWith (s p : String) : Bool :=
  decide (s.toList.take p.toList.length = p.toList)

/-- Line 146: `resp.status_code == 200 and ctype.startswith("image/")`. -/
def isImageResponse (status : Nat) (ctype : String) : Bool :=
  status == 200 && pyStartsWith ctype "image/"

/-- Line 155: `isinstance(j, dict) and j.get("error")` — the parsed value is
a dict whose `"error"` entry is truthy. -/
def hasTruthyError (j : Json) : Bool :=
  match j with
  | .obj kvs =>
    match jget kvs "error" with
    | some v => pyTruthy v
    | none => false
  | _ => false

/-- The `"error"` entry of a dict (`j.get("error")`), `Json.null` (`None`)
when absent; only read on the truthy branch. -/
def errorValue (j : Json) : Json :=
  match j with
  | .obj kvs => (jget kvs "error").getD .null
  | _ => .null

/-- Message text of the `binascii` exception raised by a failing
`base64.b64decode`; the library's exact wording is not part of the model. -/
def b64DecodeErrorMsg : String := "Invalid base64-encoded string"

/-- The response-interpretation block of `generate_image` (lines 144-183):
given status code, content-type, raw body bytes and the outcome of
`resp.json()` (`none` = parse exception), produce the image bytes or the
message of the raised `RuntimeError`. -/
def interpret_response (status : Nat) (ctype : String) (body : List Nat)
    (parsed : Option Json) : GenerationResult :=
  if isImageResponse status ctype then .image body
  else
    match parsed with
    | none =>
      .failure ("Unexpected API response (status " ++ toString status ++
        ") and not JSON. Content-type: " ++ ctype)
    | some j =>
      if hasTruthyError j then
        .failure ("Hugging Face API error: " ++ pyStr (errorValue j))
      else
        match search_for_base64 j with
        | some found =>
          match b64decode found with
          | some bytes => .image bytes
          | none => .failure b64DecodeErrorMsg
        | none =>
          .failure ("Unexpected API response (status " ++ toString status ++
            "): " ++ pyStr j)

/-- A decoded PIL image after `.convert("RGBA")`; only its pixel dimensions
matter to the modelled logic. -/
structure PILImage where
  width : Nat
  height : Nat
deriving DecidableEq

/-- The mutable slots of the application: `self.generated_image` and
`self.photo_image` (line 31-32; `None` initially).  The photo slot stores
the scaled dimensions handed to Tkinter. -/
structure AppState where
  generated_image : Option PILImage
  photo_image : Option (Int × Int)
deriving DecidableEq

/-- Scale factor of `display_image` (line 198):
`min(max_w / w, max_h / h, 1.0)` with `max_w, max_h = 768, 512`; IEEE
arithmetic is modelled exactly over `ℚ`. -/
def displayScale (w h : Nat) : ℚ :=
  min (min ((768 : ℚ) / w) ((512 : ℚ) / h)) 1

/-- Output dimensions of `display_image` (lines 199-200):
`int(w * scale), int(h * scale)`; `int()` truncates toward zero, which on
these non-negative values is the floor. -/
def display_image (w h : Nat) : Int × Int :=
  (⌊(w : ℚ) * displayScale w h⌋, ⌊(h : ℚ) * displayScale w h⌋)

/-- Outcome of the `Generate Image` button handler: a warning dialog with
no request thread started, or a thread started with these arguments. -/
inductive DispatchOutcome where
  | warning (title msg : String) : DispatchOutcome
  | dispatched (token model prompt : String) (width height steps : Int) : DispatchOutcome
deriving DecidableEq

/-- Python `str.strip()`: remove leading and trailing whitespace (modelled
for the ASCII whitespace the inputs use). -/
def pyStrip (s : String) : String :=
  String.mk (((s.toList.dropWhile Char.isWhitespace).reverse.dropWhile
    Char.isWhitespace).reverse)

/-- Fallback model identifier (line 12). -/
def DEFAULT_MODEL : String := "runwayml/stable-diffusion-v1-5"

/-- `on_generate_clicked` (lines 95-114): validate prompt and token, then
start the worker thread.  `envToken` is `os.getenv("HF_API_TOKEN")`
(`none` = unset); `token_field or getenv(...)` keeps the stripped field when
non-empty, else the raw environment value, and `if not token` rejects both
`None` and the empty string. -/
def on_generate_clicked (promptText tokenField : String) (envToken : Option String)
    (modelField : String) (width height steps : Int) : DispatchOutcome :=
  let prompt := pyStrip promptText
  if prompt = "" then
    .warning "Prompt missing" "Please enter a text prompt to generate an image."
  else
    let token : Option String :=
      if pyStrip tokenField ≠ "" then some (pyStrip tokenField) else envToken
    match token with
    | none =>
      .warning "API token missing"
        "Provide a Hugging Face API token in the top field or set HF_API_TOKEN environment variable."
    | some t =>
      if t = "" then
        .warning "API token missing"
          "Provide a Hugging Face API token in the top field or set HF_API_TOKEN environment variable."
      else
        let model := if pyStrip modelField ≠ "" then pyStrip modelField else DEFAULT_MODEL
        .dispatched t model prompt width height steps

/-- An HTTP response as seen by `generate_image`: status code, content-type
header (lowercased by `requests`), body bytes, and the outcome of
`resp.json()`. -/
structure HttpResponse where
  status : Nat
  contentType : String
  body : List Nat
  parsed : Option Json

/-- Outcome of one run of the worker routine `generate_image`: success, or
the error dialog shown by the `except` block (line 190-192). -/
inductive GenOutcome where
  | success : GenOutcome
  | errorDialog (msg : String) : GenOutcome
deriving DecidableEq

/-- The worker routine `generate_image` (lines 116-192) as a transformer of
the application state.  The network call and PIL's `Image.open(...).convert`
enter as parameters: `resp` is the response or the transport exception's
message, `decodeImage` is the decoder or the decode exception's message.
Every raised exception lands in the `except` block, which leaves the slots
untouched; on success `self.generated_image` is assigned the decoded image
(line 187) and `display_image` stores the scaled photo (line 204). -/
def generate_image (st : AppState) (resp : Except String HttpResponse)
    (decodeImage : List Nat → Except String PILImage) : AppState × GenOutcome :=
  match resp with
  | .error e => (st, .errorDialog e)
  | .ok r =>
    match interpret_response r.status r.contentType r.body r.parsed with
    | .failure m => (st, .errorDialog m)
    | .image bytes =>
      match decodeImage bytes with
      | .error e => (st, .errorDialog e)
      | .ok img =>
        ({ generated_image := some img,
           photo_image := some (display_image img.width img.height) },
         .success)

/-- `clear_image` (lines 208-212): both slots are released. -/
def clear_image (_st : AppState) : AppState :=
  { generated_image := none, photo_image := none }

/-- Outcome of `save_image`: the "No image" info dialog, a successful save,
or the save-error dialog. -/
inductive SaveOutcome where
  | noImage : SaveOutcome
  | saved (filename : String) : SaveOutcome
  | saveError (msg : String) : SaveOutcome
deriving DecidableEq

/-- `save_image` (lines 214-224) with the filesystem write as a parameter
(`Except` carrying the exception message).  The second component records
whether `self.generated_image.save(...)` was attempted at all. -/
def save_image (st : AppState) (write : Except String Unit) : SaveOutcome × Bool :=
  match st.generated_image with
  | none => (.noImage, false)
  | some _ =>
    match write with
    | .ok _ => (.saved "hf_generated_image.png", true)
    | .error e => (.saveError e, true)

mutual

/-- Specification-side predicate: the JSON value holds the string `s` at
nesting depth at most `d` (a top-level string is at depth `0`; each
object or array level consumes one unit). -/
def containsStringAtDepth : Json → String → Nat → Bool
  | .str t, s, _ => t = s
  | .arr xs, s, d + 1 => containsStringList xs s d
  | .obj kvs, s, d + 1 => containsStringKVs kvs s d
  | _, _, _ => false

/-- `containsStringAtDepth` over the elements of a JSON list. -/
def containsStringList : JsonList → String → Nat → Bool
  | .nil, _, _ => false
  | .cons x xs, s, d => containsStringAtDepth x s d || containsStringList xs s d

/-- `containsStringAtDepth` over the values of a JSON object. -/
def containsStringKVs : JsonKVs → String → Nat → Bool
  | .nil, _, _ => false
  | .cons _ v kvs, s, d => containsStringAtDepth v s d || containsStringKVs kvs s d

end

/-- A 300-character string over the base64 alphabet (the payload shape of
the spec's nested-string scenario). -/
def b64A300 : String := String.mk (List.replicate 300 'A')

/-- Its base64 decoding: 225 zero bytes. -/
def b64A300bytes : List Nat := List.replicate 225 0

/-- A parsed JSON body whose top-level `"error"` entry is present but falsy
(the empty string) next to a base64 payload. -/
def falsyErrorJson : Json :=
  .obj (.cons "error" (.str "") (.cons "generated_image" (.str b64A300) .nil))

/-- The parsed JSON object `\x7b"error": "x"\x7d`. -/
def errorXJson : Json := .obj (.cons "error" (.str "x") .nil)

/-- ASCII bytes of the serialized text `\x7b"error": "x"\x7d`, used as a raw
body. -/
def errorXBody : List Nat := "\x7b\x22error\x22: \x22x\x22\x7d".toList.map Char.toNat

/-- A JSON body used for first-match checks: two qualifying base64-like
strings among siblings. -/
def twoMatchJson : Json :=
  .obj (.cons "first" (.str b64A300)
    (.cons "second" (.str (String.mk (List.replicate 300 'B'))) .nil))

/-- A JSON body holding the payload nested three levels deep, the shape of
the spec's nested-string scenario. -/
def nestedJson : Json :=
  .obj (.cons "data"
    (.arr (.cons (.obj (.cons "generated_image" (.str b64A300) .nil)) .nil))
    .nil)

/-- An application state that already displays an image. -/
def stWithImage : AppState :=
  { generated_image := some ⟨640, 480⟩, photo_image := some (640, 480) }

/-- A PIL decoder that always fails, for exercising the decode-error path. -/
def failingDecode : List Nat → Except String PILImage :=
  fun _ => .error "cannot identify image file"


/-- First match of a filter over an append distributes left to right. -/
theorem head?_filter_append (p : α → Bool) (A B : List α) :
    ((A ++ B).filter p).head? = ((A.filter p).head?).or ((B.filter p).head?) := by
  induction A with
  | nil => simp
  | cons x A ih =>
    by_cases h : p x
    · simp [List.filter_cons, h]
    · simp [List.filter_cons, h, ih]

mutual

/-- `search_for_base64` returns the first string, in depth-first structural
order, satisfying the heuristic. -/
theorem search_eq_firstMatch (j : Json) :
    search_for_base64 j = ((flattenStrings j).filter isB64Likely).head? := by
  cases j with
  | str s =>
    by_cases h : isB64Likely s <;>
      simp [search_for_base64, flattenStrings, List.filter, h]
  | arr xs =>
    rw [search_for_base64, flattenStrings]
    exact searchList_eq_firstMatch xs
  | obj kvs =>
    rw [search_for_base64, flattenStrings]
    exact searchKVs_eq_firstMatch kvs
  | null => rfl
  | bool b => rfl
  | num n => rfl

/-- List version of `search_eq_firstMatch`. -/
theorem searchList_eq_firstMatch (xs : JsonList) :
    searchList xs = ((flattenStringsList xs).filter isB64Likely).head? := by
  cases xs with
  | nil => rfl
  | cons x xs =>
    rw [searchList, flattenStringsList, head?_filter_append,
      search_eq_firstMatch x, searchList_eq_firstMatch xs]
    cases (List.filter isB64Likely (flattenStrings x)).head? <;> simp

/-- Object version of `search_eq_firstMatch`. -/
theorem searchKVs_eq_firstMatch (kvs : JsonKVs) :
    searchKVs kvs = ((flattenStringsKVs kvs).filter isB64Likely).head? := by
  cases kvs with
  | nil => rfl
  | cons k v kvs =>
    rw [searchKVs, flattenStringsKVs, head?_filter_append,
      search_eq_firstMatch v, searchKVs_eq_firstMatch kvs]
    cases (List.filter isB64Likely (flattenStrings v)).head? <;> simp

end


mutual

/-- A string contained at bounded depth is listed by the traversal. -/
theorem mem_flatten_of_contains (j : Json) (s : String) (d : Nat)
    (h : containsStringAtDepth j s d = true) : s ∈ flattenStrings j := by
  cases j with
  | str t =>
    have ht : t = s := by simpa [containsStringAtDepth] using h
    simp [flattenStrings, ht]
  | arr xs =>
    cases d with
    | zero => simp [containsStringAtDepth] at h
    | succ d =>
      rw [containsStringAtDepth] at h
      rw [flattenStrings]
      exact memList_flatten_of_contains xs s d h
  | obj kvs =>
    cases d with
    | zero => simp [containsStringAtDepth] at h
    | succ d =>
      rw [containsStringAtDepth] at h
      rw [flattenStrings]
      exact memKVs_flatten_of_contains kvs s d h
  | null => simp [containsStringAtDepth] at h
  | bool b => simp [containsStringAtDepth] at h
  | num n => simp [containsStringAtDepth] at h

/-- List version of `mem_flatten_of_contains`. -/
theorem memList_flatten_of_contains (xs : JsonList) (s : String) (d : Nat)
    (h : containsStringList xs s d = true) : s ∈ flattenStringsList xs := by
  cases xs with
  | nil => simp [containsStringList] at h
  | cons x xs =>
    rw [containsStringList, Bool.or_eq_true] at h
    rw [flattenStringsList, List.mem_append]
    cases h with
    | inl h => exact Or.inl (mem_flatten_of_contains x s d h)
    | inr h => exact Or.inr (memList_flatten_of_contains xs s d h)

/-- Object version of `mem_flatten_of_contains`. -/
theorem memKVs_flatten_of_contains (kvs : JsonKVs) (s : String) (d : Nat)
    (h : containsStringKVs kvs s d = true) : s ∈ flattenStringsKVs kvs := by
  cases kvs with
  | nil => simp [containsStringKVs] at h
  | cons k v kvs =>
    rw [containsStringKVs, Bool.or_eq_true] at h
    rw [flattenStringsKVs, List.mem_append]
    cases h with
    | inl h => exact Or.inl (mem_flatten_of_contains v s d h)
    | inr h => exact Or.inr (memKVs_flatten_of_contains kvs s d h)

end

/-- Characters of the base64 alphabet are ASCII. -/
theorem b64val_ascii {c : Char} (h : (b64val c).isSome = true) : c.toNat < 128 := by
  unfold b64val at h
  split at h
  · rename_i hr; omega
  · split at h
    · rename_i hr; omega
    · split at h
      · rename_i hr; omega
      · split at h
        · rename_i hc; subst hc; decide
        · split at h
          · rename_i hc; subst hc; decide
          · simp at h

/-- Characters of the base64 alphabet are not padding. -/
theorem b64val_ne_pad {c : Char} (h : (b64val c).isSome = true) : ¬(c = '=') := by
  intro hc; subst hc; simp [b64val] at h

/-- Characters of the base64 alphabet satisfy the search heuristic's
character class. -/
theorem isB64HeuristicChar_of_b64val {c : Char} (h : (b64val c).isSome = true) :
    isB64HeuristicChar c = true := by
  unfold b64val at h
  unfold isB64HeuristicChar
  split at h
  · rename_i hr
    have hu : c.isUpper = true := by
      unfold Char.isUpper
      simp only [ge_iff_le, Bool.and_eq_true, decide_eq_true_eq, UInt32.le_def,
        BitVec.le_def]
      exact hr
    simp [Char.isAlphanum, Char.isAlpha, hu]
  · split at h
    · rename_i hr
      have hl : c.isLower = true := by
        unfold Char.isLower
        simp only [ge_iff_le, Bool.and_eq_true, decide_eq_true_eq, UInt32.le_def,
          BitVec.le_def]
        exact hr
      simp [Char.isAlphanum, Char.isAlpha, hl]
    · split at h
      · rename_i hr
        have hd : c.isDigit = true := by
          unfold Char.isDigit
          simp only [ge_iff_le, Bool.and_eq_true, decide_eq_true_eq, UInt32.le_def,
            BitVec.le_def]
          exact hr
        simp [Char.isAlphanum, hd]
      · split at h
        · rename_i hc; subst hc; decide
        · split at h
          · rename_i hc; subst hc; decide
          · simp at h


/-- `decodeQuads` succeeds on any digit run of length divisible by four. -/
theorem decodeQuads_isSome (padded : Bool) :
    ∀ ds : List Nat, ds.length % 4 = 0 → (decodeQuads ds padded).isSome = true
  | [], _ => by simp [decodeQuads]
  | [a], h => by simp at h
  | [a, b], h => by simp at h
  | [a, b, c], h => by simp at h
  | a :: b :: c :: d :: rest, h => by
    have h4 : rest.length % 4 = 0 := by
      simp only [List.length_cons] at h
      omega
    have ih := decodeQuads_isSome padded rest h4
    rw [decodeQuads]
    simpa using ih

/-- A list whose elements all map to a digit keeps its length under
`filterMap b64val`. -/
theorem length_filterMap_b64val :
    ∀ l : List Char, (∀ c ∈ l, (b64val c).isSome = true) →
      (l.filterMap b64val).length = l.length
  | [], _ => rfl
  | c :: l, h => by
    have hc := h c (List.mem_cons_self c l)
    obtain ⟨v, hv⟩ := Option.isSome_iff_exists.mp hc
    have ih := length_filterMap_b64val l fun x hx => h x (List.mem_cons_of_mem c hx)
    simp [List.filterMap_cons, hv, ih]

/-- `b64decode` succeeds on any string over the plain base64 alphabet whose
length is a multiple of four. -/
theorem b64decode_isSome_of_alphabet (s : String)
    (halpha : ∀ c ∈ s.toList, (b64val c).isSome = true)
    (hlen : s.length % 4 = 0) : (b64decode s).isSome = true := by
  have hascii : s.toList.all (fun c => decide (c.toNat < 128)) = true := by
    rw [List.all_eq_true]
    intro c hc
    simpa using b64val_ascii (halpha c hc)
  have hkept : s.toList.filter (fun c => (b64val c).isSome || c = '=') = s.toList := by
    rw [List.filter_eq_self]
    intro c hc
    simp [halpha c hc]
  have hdata : s.toList.takeWhile (fun c => c ≠ '=') = s.toList := by
    rw [List.takeWhile_eq_self_iff]
    intro c hc
    simpa using b64val_ne_pad (halpha c hc)
  rw [b64decode, if_pos hascii]
  simp only [hkept, hdata]
  apply decodeQuads_isSome
  rw [length_filterMap_b64val s.toList halpha]
  exact hlen

/-- A string over the plain base64 alphabet of length greater than 200
passes the search heuristic. -/
theorem isB64Likely_of_alphabet (s : String)
    (halpha : ∀ c ∈ s.toList, (b64val c).isSome = true)
    (hlen : 200 < s.length) : isB64Likely s = true := by
  rw [isB64Likely, Bool.and_eq_true, List.all_eq_true]
  refine ⟨by simpa using hlen, ?_⟩
  intro c hc
  exact isB64HeuristicChar_of_b64val (halpha c (List.take_subset 200 s.toList hc))


/-- C3: for every response with status 200 and a content-type beginning with
`image/`, the interpreter returns exactly the body bytes, before and
regardless of any JSON parsing of the body. -/
theorem claim_C3 (ctype : String) (body : List Nat) (parsed : Option Json)
    (h : pyStartsWith ctype "image/" = true) :
    interpret_response 200 ctype body parsed = .image body := by
  simp [interpret_response, isImageResponse, h]

/-- Witness for C3 at a concrete input: a JSON error body delivered with an
image content-type is still taken verbatim as the image. -/
theorem claim_C3_witness :
    pyStartsWith "image/png" "image/" = true ∧
      interpret_response 200 "image/png" [1, 2, 3] (some errorXJson) = .image [1, 2, 3] :=
  ⟨by decide, claim_C3 "image/png" [1, 2, 3] (some errorXJson) (by decide)⟩

/-- C6: a response not taken as an image whose body fails to parse as JSON
yields a failure whose message mentions the content-type. -/
theorem claim_C6 (status : Nat) (ctype : String) (body : List Nat)
    (h : isImageResponse status ctype = false) :
    interpret_response status ctype body none =
      .failure ("Unexpected API response (status " ++ toString status ++
        ") and not JSON. Content-type: " ++ ctype) ∧
    ∃ pre post,
      ("Unexpected API response (status " ++ toString status ++
        ") and not JSON. Content-type: " ++ ctype) = pre ++ ctype ++ post := by
  refine ⟨by simp [interpret_response, h], ?_⟩
  refine ⟨"Unexpected API response (status " ++ toString status ++
    ") and not JSON. Content-type: ", "", ?_⟩
  simp

/-- Witness for C6 at a concrete input. -/
theorem claim_C6_witness :
    isImageResponse 503 "text/html" = false ∧
      interpret_response 503 "text/html" [60, 104, 116, 109, 108, 62] none =
        .failure "Unexpected API response (status 503) and not JSON. Content-type: text/html" :=
  ⟨by decide, by
    have h := claim_C6 503 "text/html" [60, 104, 116, 109, 108, 62] (by decide)
    exact h.1⟩

/-- C7: an empty (or whitespace-only) prompt, and likewise an empty token
with no usable environment fallback, short-circuits to a warning dialog; the
worker thread is started only by the `dispatched` outcome, so none is
started. -/
theorem claim_C7 (promptText tokenField : String) (envToken : Option String)
    (modelField : String) (width height steps : Int) :
    (pyStrip promptText = "" →
      on_generate_clicked promptText tokenField envToken modelField width height steps =
        .warning "Prompt missing" "Please enter a text prompt to generate an image.") ∧
    (pyStrip tokenField = "" → (envToken = none ∨ envToken = some "") →
      ∃ t m, on_generate_clicked promptText tokenField envToken modelField width height steps =
        .warning t m) := by
  constructor
  · intro h
    simp [on_generate_clicked, h]
  · intro ht he
    by_cases hp : pyStrip promptText = ""
    · exact ⟨"Prompt missing", "Please enter a text prompt to generate an image.",
        by simp [on_generate_clicked, hp]⟩
    · refine ⟨"API token missing",
        "Provide a Hugging Face API token in the top field or set HF_API_TOKEN environment variable.", ?_⟩
      cases he with
      | inl he => simp [on_generate_clicked, hp, ht, he]
      | inr he => simp [on_generate_clicked, hp, ht, he]

/-- Witness for C7 at concrete inputs: a whitespace-only prompt, and an
empty token field with the environment variable set to the empty string. -/
theorem claim_C7_witness :
    pyStrip "   " = "" ∧
    on_generate_clicked "   " "tok" none "m" 512 512 25 =
      .warning "Prompt missing" "Please enter a text prompt to generate an image." ∧
    (∃ t m, on_generate_clicked "a cat" " " (some "") "m" 512 512 25 = .warning t m) :=
  ⟨by decide,
   (claim_C7 "   " "tok" none "m" 512 512 25).1 (by decide),
   (claim_C7 "a cat" " " (some "") "m" 512 512 25).2 (by decide) (Or.inr rfl)⟩

/-- C9: after `clear_image` the stored slot is empty, so a subsequent
`save_image` reports "no image" and attempts no filesystem write. -/
theorem claim_C9 (st : AppState) (write : Except String Unit) :
    (clear_image st).generated_image = none ∧
      save_image (clear_image st) write = (.noImage, false) :=
  ⟨rfl, rfl⟩

/-- C10: on every failure outcome of the worker routine the mutable slots
are left exactly as they were; the image slot is (re)assigned only when the
response was interpreted to image bytes and PIL decoded them. -/
theorem claim_C10 (st : AppState) (resp : Except String HttpResponse)
    (dec : List Nat → Except String PILImage) :
    ((generate_image st resp dec).2 ≠ .success →
      (generate_image st resp dec).1 = st) ∧
    ((generate_image st resp dec).2 = .success →
      ∃ r bytes img, resp = .ok r ∧
        interpret_response r.status r.contentType r.body r.parsed = .image bytes ∧
        dec bytes = .ok img ∧
        (generate_image st resp dec).1.generated_image = some img) := by
  cases resp with
  | error e => exact ⟨fun _ => rfl, fun h => by simp [generate_image] at h⟩
  | ok r =>
    cases hi : interpret_response r.status r.contentType r.body r.parsed with
    | failure m =>
      exact ⟨fun _ => by simp [generate_image, hi],
        fun h => by simp [generate_image, hi] at h⟩
    | image bytes =>
      cases hd : dec bytes with
      | error e =>
        exact ⟨fun _ => by simp [generate_image, hi, hd],
          fun h => by simp [generate_image, hi, hd] at h⟩
      | ok img =>
        refine ⟨fun h => absurd (by simp [generate_image, hi, hd]) h, fun _ => ?_⟩
        exact ⟨r, bytes, img, rfl, hi, hd, by simp [generate_image, hi, hd]⟩

/-- Witness for C10 at a concrete input: a transport failure leaves an
existing displayed image in place. -/
theorem claim_C10_witness :
    (generate_image stWithImage (Except.error "timeout") failingDecode).2 ≠ .success ∧
      (generate_image stWithImage (Except.error "timeout") failingDecode).1 = stWithImage :=
  ⟨by decide, (claim_C10 stWithImage (Except.error "timeout") failingDecode).1 (by decide)⟩


set_option maxRecDepth 8000

/-- C2 (amended): a response taken through the JSON path whose parsed body
is a dict with a truthy `"error"` entry yields the API-error failure, whose
message contains the error value; in particular `\x7b"error": "x"\x7d` does so
regardless of status code. -/
theorem claim_C2 (status : Nat) (ctype : String) (body : List Nat)
    (kvs : JsonKVs) (e : Json)
    (himg : isImageResponse status ctype = false)
    (herr : jget kvs "error" = some e) (htruthy : pyTruthy e = true) :
    interpret_response status ctype body (some (.obj kvs)) =
      .failure ("Hugging Face API error: " ++ pyStr e) ∧
    (e = .str "x" →
      ∃ pre post, ("Hugging Face API error: " ++ pyStr e) = pre ++ "x" ++ post) := by
  have htr : hasTruthyError (.obj kvs) = true := by
    simp [hasTruthyError, herr, htruthy]
  have hev : errorValue (.obj kvs) = e := by
    simp [errorValue, herr]
  refine ⟨by simp [interpret_response, himg, htr, hev], ?_⟩
  intro he
  subst he
  exact ⟨"Hugging Face API error: ", "", by simp [pyStr]⟩

/-- Counterexample to C2 as stated: a parsed object that does contain an
`"error"` field (with the falsy value `""`) is not turned into a failure —
the interpreter proceeds to the base64 search and succeeds; and with status
200 and an image content-type the same `\x7b"error": "x"\x7d` body is
returned verbatim as an image rather than as a failure. -/
theorem claim_C2_counterexample :
    jget (JsonKVs.cons "error" (.str "")
        (JsonKVs.cons "generated_image" (.str b64A300) .nil)) "error" =
      some (.str "") ∧
    interpret_response 503 "application/json" [] (some falsyErrorJson) =
      .image b64A300bytes ∧
    interpret_response 200 "image/png" errorXBody (some errorXJson) =
      .image errorXBody := by
  refine ⟨rfl, by decide, rfl⟩

/-- Witness for C2 at a concrete input. -/
theorem claim_C2_witness :
    isImageResponse 418 "application/json" = false ∧
    jget (JsonKVs.cons "error" (.str "x") .nil) "error" = some (.str "x") ∧
    pyTruthy (.str "x") = true ∧
    interpret_response 418 "application/json" [] (some errorXJson) =
      .failure "Hugging Face API error: x" :=
  ⟨by decide, rfl, by decide,
    (claim_C2 418 "application/json" [] (JsonKVs.cons "error" (.str "x") .nil)
      (.str "x") (by decide) rfl (by decide)).1⟩

/-- C4: the search is the first match, in depth-first structural order
(dict values in insertion order, list elements in index order), of the
base64-likely heuristic over the JSON structure; being a function of the
structure, the choice is deterministic. -/
theorem claim_C4 (j : Json) :
    search_for_base64 j = ((flattenStrings j).filter isB64Likely).head? :=
  search_eq_firstMatch j


set_option maxRecDepth 8000

/-- C5: a falsy or absent top-level `"error"` does not short-circuit — the
interpreter proceeds to the base64 search (decoding the find, with a
malformed find surfacing as a generic decode failure, and reporting the
structure when nothing matches); and the heuristic requires total length
strictly over 200 while inspecting only the first 200 characters. -/
theorem claim_C5 (status : Nat) (ctype : String) (body : List Nat) (j : Json)
    (s : String) (bs : List Nat) (a u v : List Char)
    (himg : isImageResponse status ctype = false)
    (herr : hasTruthyError j = false) :
    (search_for_base64 j = some s → b64decode s = some bs →
      interpret_response status ctype body (some j) = .image bs) ∧
    (search_for_base64 j = some s → b64decode s = none →
      interpret_response status ctype body (some j) = .failure b64DecodeErrorMsg) ∧
    (search_for_base64 j = none →
      interpret_response status ctype body (some j) =
        .failure ("Unexpected API response (status " ++ toString status ++
          "): " ++ pyStr j)) ∧
    (∀ w : String, w.length = 200 → isB64Likely w = false) ∧
    (a.length = 200 → u ≠ [] → v ≠ [] →
      isB64Likely (String.mk (a ++ u)) = isB64Likely (String.mk (a ++ v))) := by
  refine ⟨?_, ?_, ?_, ?_, ?_⟩
  · intro hs hb
    simp [interpret_response, himg, herr, hs, hb]
  · intro hs hb
    simp [interpret_response, himg, herr, hs, hb]
  · intro hs
    simp [interpret_response, himg, herr, hs]
  · intro w hw
    simp [isB64Likely, hw]
  · intro ha hu hv
    have hlen : ∀ t : List Char, (String.mk (a ++ t)).length = 200 + t.length := by
      intro t
      show (a ++ t).length = 200 + t.length
      simp [ha]
    have htake : ∀ t : List Char, (String.mk (a ++ t)).toList.take 200 = a := by
      intro t
      show (a ++ t).take 200 = a
      rw [List.take_append_eq_append_take, ha]
      simp [ha ▸ List.take_length (l := a)]
    have hu0 : 0 < u.length := List.length_pos.mpr hu
    have hv0 : 0 < v.length := List.length_pos.mpr hv
    rw [isB64Likely, isB64Likely, htake u, htake v, hlen u, hlen v]
    have h1 : decide (200 + u.length > 200) = true := by simp; omega
    have h2 : decide (200 + v.length > 200) = true := by simp; omega
    rw [h1, h2]

/-- Witness for C5 at concrete inputs. -/
theorem claim_C5_witness :
    isImageResponse 404 "text/plain" = false ∧
    hasTruthyError twoMatchJson = false ∧
    interpret_response 404 "text/plain" [] (some twoMatchJson) =
      .image b64A300bytes :=
  ⟨by decide, by decide,
    (claim_C5 404 "text/plain" [] twoMatchJson b64A300 b64A300bytes [] [] []
      (by decide) (by decide)).1 (by decide) (by decide)⟩


set_option maxRecDepth 8000

/-- C1: on the JSON path with no truthy top-level error, the result is the
base64 decoding of the first heuristic match in depth-first order; in
particular a nested length-300 base64-alphabet payload (at any depth up to
5, the sole heuristic match of the body) is located and decoded. -/
theorem claim_C1 (status : Nat) (ctype : String) (body : List Nat) (j : Json)
    (s : String) (bs : List Nat) (d : Nat)
    (himg : isImageResponse status ctype = false)
    (herr : hasTruthyError j = false) :
    (search_for_base64 j = some s → b64decode s = some bs →
      interpret_response status ctype body (some j) = .image bs) ∧
    (d ≤ 5 → containsStringAtDepth j s d = true → s.length = 300 →
      (∀ c ∈ s.toList, (b64val c).isSome = true) →
      (∀ t ∈ flattenStrings j, isB64Likely t = true → t = s) →
      ∃ bs2, b64decode s = some bs2 ∧
        interpret_response status ctype body (some j) = .image bs2) := by
  constructor
  · intro hs hb
    simp [interpret_response, himg, herr, hs, hb]
  · intro _ hcont hlen halpha huniq
    have hmem : s ∈ flattenStrings j := mem_flatten_of_contains j s d hcont
    have hlikely : isB64Likely s = true :=
      isB64Likely_of_alphabet s halpha (by omega)
    have hsearch : search_for_base64 j = some s := by
      rw [search_eq_firstMatch]
      have hmemf : s ∈ (flattenStrings j).filter isB64Likely :=
        List.mem_filter.mpr ⟨hmem, hlikely⟩
      cases hh : ((flattenStrings j).filter isB64Likely).head? with
      | none =>
        rw [List.head?_eq_none_iff] at hh
        rw [hh] at hmemf
        simp at hmemf
      | some t =>
        have ht : t ∈ (flattenStrings j).filter isB64Likely := by
          cases hl : (flattenStrings j).filter isB64Likely with
          | nil => rw [hl] at hh; simp at hh
          | cons x l =>
            rw [hl] at hh
            simp only [List.head?_cons, Option.some_inj] at hh
            subst hh
            exact List.mem_cons_self _ _
        obtain ⟨htm, htl⟩ := List.mem_filter.mp ht
        rw [huniq t htm htl]
    have hdec : (b64decode s).isSome = true :=
      b64decode_isSome_of_alphabet s halpha (by rw [hlen])
    obtain ⟨bs2, hbs2⟩ := Option.isSome_iff_exists.mp hdec
    exact ⟨bs2, hbs2, by simp [interpret_response, himg, herr, hsearch, hbs2]⟩

/-- Witness for C1 at a concrete input: the payload nested three levels
deep is found and decoded. -/
theorem claim_C1_witness :
    isImageResponse 404 "application/json" = false ∧
    containsStringAtDepth nestedJson b64A300 3 = true ∧
    (∃ bs2, b64decode b64A300 = some bs2 ∧
      interpret_response 404 "application/json" [] (some nestedJson) = .image bs2) :=
  ⟨by decide, by decide,
    (claim_C1 404 "application/json" [] nestedJson b64A300 [] 3
      (by decide) (by decide)).2 (by decide) (by decide) (by decide)
      (by decide) (by decide)⟩


/-- C8: the renderer scales by `min(768/w, 512/h, 1)` — never upscaling —
so the output fits the 768 by 512 bounding box, never exceeds the input
size, and each output dimension is within one pixel below the exact
uniformly scaled value (aspect preserved up to rounding). -/
theorem claim_C8 (w h : Nat) (hw : 0 < w) (hh : 0 < h) :
    displayScale w h ≤ 1 ∧
    ((display_image w h).1 ≤ 768 ∧ (display_image w h).2 ≤ 512) ∧
    ((display_image w h).1 ≤ (w : Int) ∧ (display_image w h).2 ≤ (h : Int)) ∧
    ((w : ℚ) * displayScale w h - 1 < ((display_image w h).1 : ℚ) ∧
      ((display_image w h).1 : ℚ) ≤ (w : ℚ) * displayScale w h) ∧
    ((h : ℚ) * displayScale w h - 1 < ((display_image w h).2 : ℚ) ∧
      ((display_image w h).2 : ℚ) ≤ (h : ℚ) * displayScale w h) := by
  have hw0 : (0 : ℚ) < (w : ℚ) := by exact_mod_cast hw
  have hh0 : (0 : ℚ) < (h : ℚ) := by exact_mod_cast hh
  have hs1 : displayScale w h ≤ 1 := min_le_right _ _
  have hsw : displayScale w h ≤ 768 / w := le_trans (min_le_left _ _) (min_le_left _ _)
  have hsh : displayScale w h ≤ 512 / h := le_trans (min_le_left _ _) (min_le_right _ _)
  refine ⟨hs1, ⟨?_, ?_⟩, ⟨?_, ?_⟩, ⟨?_, ?_⟩, ⟨?_, ?_⟩⟩
  · have hb : (w : ℚ) * displayScale w h ≤ 768 := by
      calc (w : ℚ) * displayScale w h ≤ (w : ℚ) * (768 / w) :=
            mul_le_mul_of_nonneg_left hsw (le_of_lt hw0)
        _ = 768 := by field_simp
    have := Int.floor_le_floor hb
    simpa [display_image] using this
  · have hb : (h : ℚ) * displayScale w h ≤ 512 := by
      calc (h : ℚ) * displayScale w h ≤ (h : ℚ) * (512 / h) :=
            mul_le_mul_of_nonneg_left hsh (le_of_lt hh0)
        _ = 512 := by field_simp
    have := Int.floor_le_floor hb
    simpa [display_image] using this
  · have hb : (w : ℚ) * displayScale w h ≤ (w : ℚ) := by
      calc (w : ℚ) * displayScale w h ≤ (w : ℚ) * 1 :=
            mul_le_mul_of_nonneg_left hs1 (le_of_lt hw0)
        _ = (w : ℚ) := mul_one _
    have := Int.floor_le_floor hb
    simpa [display_image] using this
  · have hb : (h : ℚ) * displayScale w h ≤ (h : ℚ) := by
      calc (h : ℚ) * displayScale w h ≤ (h : ℚ) * 1 :=
            mul_le_mul_of_nonneg_left hs1 (le_of_lt hh0)
        _ = (h : ℚ) := mul_one _
    have := Int.floor_le_floor hb
    simpa [display_image] using this
  · exact Int.sub_one_lt_floor ((w : ℚ) * displayScale w h)
  · exact Int.floor_le ((w : ℚ) * displayScale w h)
  · exact Int.sub_one_lt_floor ((h : ℚ) * displayScale w h)
  · exact Int.floor_le ((h : ℚ) * displayScale w h)

/-- Witness for C8 at a concrete input (a 1024 by 768 decoded image). -/
theorem claim_C8_witness :
    (display_image 1024 768).1 ≤ 768 ∧ (display_image 1024 768).2 ≤ 512 :=
  (claim_C8 1024 768 (by norm_num) (by norm_num)).2.1

end HFApp
